import Mathlib

/-!
# tb3 dashboard: the endpoint map and the route table

A shallow embedding of the two source files of the frontend:

* `frontend/src/api/tb3.js`: the object `api`, fifteen arrow functions that each forward to
  `client.get` or `client.post`;
* `frontend/src/router/index.js`: the options object handed to the router, a four-entry
  route table.

The module `./client` is not part of the sources, so the client is a parameter of every
operation: a pair of functions `get` and `post` that receive the argument list exactly as the
arrow function passes it and answer with a value of an arbitrary type `ρ` (a pending handle, a
failure, a state transformer, ...).

Each operation is embedded twice: on a parameter whose string conversion is total (`api.edge`,
`api.task`, ...), and through `api.call` on an arbitrary argument list, where the conversion
of a symbol or of an object may raise before the client is called.
-/

namespace Tb3

/-! ## Values -/

/-- Primitive values that are interpolated into a URL template: `undefined`, `null`, booleans,
strings, and numbers that are integers of magnitude at most 2^53 - 1 (the range in which a
number is an exact integer). Fractional numbers are not covered; symbols and objects are
values of `JsVal`, whose conversion may raise (see `interpolate`). -/
inductive Prim where
  | undefined
  | null
  | bool (b : Bool)
  | num (n : Int) (safe : n.natAbs ≤ 9007199254740991)
  | str (s : String)
  deriving DecidableEq

/-- String conversion performed by a template literal on an interpolated value. A string is
inserted verbatim; an integer in the covered range is written in decimal, with a leading minus
sign when negative. -/
def Prim.toStr : Prim → String
  | .undefined => "undefined"
  | .null => "null"
  | .bool true => "true"
  | .bool false => "false"
  | .num n _ => toString n
  | .str s => s

/-- Values a caller may pass and the client may receive: primitives, symbols (named by their
description) and plain data objects (ordered key/value pairs). -/
inductive JsVal where
  | prim (p : Prim)
  | symbol (description : String)
  | obj (fields : List (String × JsVal))

/-- String value. -/
def JsVal.str (s : String) : JsVal := .prim (.str s)

/-- Literal `null`. -/
def JsVal.null : JsVal := .prim .null

/-! ## The client -/

/-- The two methods of `client` used by `api`. Each receives the argument list as passed
(`get(url)`, `post(url)`, `post(url, data)`, `post(url, data, config)`). -/
structure Client (ρ : Type) where
  get : List JsVal → ρ
  post : List JsVal → ρ

/-- Which client method is invoked. -/
inductive Method where
  | GET
  | POST
  deriving DecidableEq, Repr

/-- One invocation of a client method together with its argument list. -/
structure Call where
  method : Method
  args : List JsVal

/-- Hand a recorded call back to a client. -/
def Client.send {ρ : Type} (client : Client ρ) (c : Call) : ρ :=
  match c.method with
  | .GET => client.get c.args
  | .POST => client.post c.args

/-- A mock transport: every call is appended to the log and answered by `respond`. -/
def mock {α : Type} (respond : Call → α) : Client (List Call → α × List Call) where
  get args := fun log => (respond ⟨.GET, args⟩, log ++ [⟨.GET, args⟩])
  post args := fun log => (respond ⟨.POST, args⟩, log ++ [⟨.POST, args⟩])

/-- A client that answers with the URL it is given: the first argument of `get` and of
`post`. -/
def urlProbe : Client (Option JsVal) where
  get args := args[0]?
  post args := args[0]?

/-- A client that answers with the config it is given: the second argument of `get(url, config)`
and the third argument of `post(url, data, config)`. -/
def configProbe : Client (Option JsVal) where
  get args := args[1]?
  post args := args[2]?

/-! ## `api` (frontend/src/api/tb3.js) -/

namespace api

variable {ρ : Type}

/-- Source: `health: () => client.get('/health')` -/
def health (client : Client ρ) : ρ :=
  client.get [JsVal.str "/health"]

/-- Source: `accounts: () => client.get('/accounts')` -/
def accounts (client : Client ρ) : ρ :=
  client.get [JsVal.str "/accounts"]

/-- Source: `edges: () => client.get('/edges')` -/
def edges (client : Client ρ) : ρ :=
  client.get [JsVal.str "/edges"]

/-- Source: `edge: (addr) => client.get(`/edges/${addr}`)` -/
def edge (client : Client ρ) (addr : Prim) : ρ :=
  client.get [JsVal.str ("/edges/" ++ addr.toStr)]

/-- Source: `tasks: () => client.get('/tasks')` -/
def tasks (client : Client ρ) : ρ :=
  client.get [JsVal.str "/tasks"]

/-- Source: `task: (taskId) => client.get(`/tasks/${taskId}`)` -/
def task (client : Client ρ) (taskId : Prim) : ρ :=
  client.get [JsVal.str ("/tasks/" ++ taskId.toStr)]

/-- Source: `logsByTask: (taskId) => client.get(`/tasks/${taskId}/logs`)` -/
def logsByTask (client : Client ρ) (taskId : Prim) : ρ :=
  client.get [JsVal.str ("/tasks/" ++ taskId.toStr ++ "/logs")]

/-- Source: `logsAll: () => client.get('/logs')` -/
def logsAll (client : Client ρ) : ρ :=
  client.get [JsVal.str "/logs"]

/-- Source: `auditLogs: (taskId) => client.get(`/audit/tasks/${taskId}/logs`)` -/
def auditLogs (client : Client ρ) (taskId : Prim) : ρ :=
  client.get [JsVal.str ("/audit/tasks/" ++ taskId.toStr ++ "/logs")]

/-- Source: `proposals: () => client.get('/governance/proposals')` -/
def proposals (client : Client ρ) : ρ :=
  client.get [JsVal.str "/governance/proposals"]

/-- Source: `approveProposal: (id) => client.post(`/governance/proposals/${id}/approve`)` -/
def approveProposal (client : Client ρ) (id : Prim) : ρ :=
  client.post [JsVal.str ("/governance/proposals/" ++ id.toStr ++ "/approve")]

/-- Source: `rejectProposal: (id, reason) =>
client.post(`/governance/proposals/${id}/reject`, null, { params: { reason } })` -/
def rejectProposal (client : Client ρ) (id : Prim) (reason : JsVal) : ρ :=
  client.post [JsVal.str ("/governance/proposals/" ++ id.toStr ++ "/reject"), JsVal.null,
    .obj [("params", .obj [("reason", reason)])]]

/-- Source: `propagations: () => client.get('/reputation/propagations')` -/
def propagations (client : Client ρ) : ρ :=
  client.get [JsVal.str "/reputation/propagations"]

/-- Source: `demoStatus: () => client.get('/demo/status')` -/
def demoStatus (client : Client ρ) : ρ :=
  client.get [JsVal.str "/demo/status"]

/-- Source: `demoSeed: (payload) => client.post('/demo/seed', payload)` -/
def demoSeed (client : Client ρ) (payload : JsVal) : ρ :=
  client.post [JsVal.str "/demo/seed", payload]

end api

/-- Property names of the object `api`, in source order. -/
inductive Key where
  | health
  | accounts
  | edges
  | edge
  | tasks
  | task
  | logsByTask
  | logsAll
  | auditLogs
  | proposals
  | approveProposal
  | rejectProposal
  | propagations
  | demoStatus
  | demoSeed
  deriving DecidableEq, Repr, Fintype

/-- An application `api.k(...)` of one of the fifteen operations to its arguments. -/
inductive Invocation where
  | health
  | accounts
  | edges
  | edge (addr : Prim)
  | tasks
  | task (taskId : Prim)
  | logsByTask (taskId : Prim)
  | logsAll
  | auditLogs (taskId : Prim)
  | proposals
  | approveProposal (id : Prim)
  | rejectProposal (id : Prim) (reason : JsVal)
  | propagations
  | demoStatus
  | demoSeed (payload : JsVal)

/-- Property of `api` that an invocation selects. -/
def Invocation.key : Invocation → Key
  | .health => .health
  | .accounts => .accounts
  | .edges => .edges
  | .edge _ => .edge
  | .tasks => .tasks
  | .task _ => .task
  | .logsByTask _ => .logsByTask
  | .logsAll => .logsAll
  | .auditLogs _ => .auditLogs
  | .proposals => .proposals
  | .approveProposal _ => .approveProposal
  | .rejectProposal _ _ => .rejectProposal
  | .propagations => .propagations
  | .demoStatus => .demoStatus
  | .demoSeed _ => .demoSeed

/-- Evaluate an invocation: select the property and apply it. -/
def api.apply {ρ : Type} (client : Client ρ) : Invocation → ρ
  | .health => api.health client
  | .accounts => api.accounts client
  | .edges => api.edges client
  | .edge addr => api.edge client addr
  | .tasks => api.tasks client
  | .task taskId => api.task client taskId
  | .logsByTask taskId => api.logsByTask client taskId
  | .logsAll => api.logsAll client
  | .auditLogs taskId => api.auditLogs client taskId
  | .proposals => api.proposals client
  | .approveProposal id => api.approveProposal client id
  | .rejectProposal id reason => api.rejectProposal client id reason
  | .propagations => api.propagations client
  | .demoStatus => api.demoStatus client
  | .demoSeed payload => api.demoSeed client payload

/-- Errors raised by the language while the body of an arrow function is evaluated, before any
client method is entered: a `TypeError`, or a value thrown by a conversion method. -/
inductive JsError where
  | typeError
  | thrown (value : JsVal)

/-- Parameter binding of an arrow function: the argument at position `i`, or `undefined` when
the caller passed fewer arguments. Surplus arguments are ignored. -/
def param (args : List JsVal) (i : Nat) : JsVal :=
  args.getD i (.prim .undefined)

/-- String conversion of a value interpolated by a template literal. A primitive converts as in
`Prim.toStr`; a symbol cannot be converted and raises a `TypeError`; what an object converts to
is decided by its own conversion methods, left open here as `objToString`. -/
def interpolate (objToString : List (String × JsVal) → Except JsError String) :
    JsVal → Except JsError String
  | .prim p => .ok p.toStr
  | .symbol _ => .error .typeError
  | .obj fields => objToString fields

/-- Call `api[k](...args)` on an arbitrary argument list. The parameters are bound by position;
an operation with a URL template first converts its first parameter to a string, which may
raise, and only then calls the client; the other operations call the client at once. The
outcome is either the error raised before the call or the value the operation returns. -/
def api.call {ρ : Type} (objToString : List (String × JsVal) → Except JsError String)
    (client : Client ρ) : Key → List JsVal → Except JsError ρ
  | .health, _ => .ok (api.health client)
  | .accounts, _ => .ok (api.accounts client)
  | .edges, _ => .ok (api.edges client)
  | .edge, args =>
    (interpolate objToString (param args 0)).map fun s => api.edge client (.str s)
  | .tasks, _ => .ok (api.tasks client)
  | .task, args =>
    (interpolate objToString (param args 0)).map fun s => api.task client (.str s)
  | .logsByTask, args =>
    (interpolate objToString (param args 0)).map fun s => api.logsByTask client (.str s)
  | .logsAll, _ => .ok (api.logsAll client)
  | .auditLogs, args =>
    (interpolate objToString (param args 0)).map fun s => api.auditLogs client (.str s)
  | .proposals, _ => .ok (api.proposals client)
  | .approveProposal, args =>
    (interpolate objToString (param args 0)).map fun s => api.approveProposal client (.str s)
  | .rejectProposal, args =>
    (interpolate objToString (param args 0)).map fun s =>
      api.rejectProposal client (.str s) (param args 1)
  | .propagations, _ => .ok (api.propagations client)
  | .demoStatus, _ => .ok (api.demoStatus client)
  | .demoSeed, args => .ok (api.demoSeed client (param args 0))

/-! ## The route table (frontend/src/router/index.js) -/

/-- Page components imported by the router module. -/
inductive View where
  | Dashboard
  | EdgeDetail
  | LogsAudit
  | Governance
  deriving DecidableEq, Repr

/-- One element of the `routes` array. -/
structure RouteRecord where
  path : String
  name : String
  component : View
  deriving DecidableEq, Repr

/-- Options object passed to `new Router`. -/
structure RouterOptions where
  mode : String
  routes : List RouteRecord

/-- Default export of the router module: the options it is constructed from. -/
def router : RouterOptions :=
  ⟨"history",
    [ ⟨"/", "dashboard", .Dashboard⟩,
      ⟨"/edge/:addr", "edgeDetail", .EdgeDetail⟩,
      ⟨"/audit", "audit", .LogsAudit⟩,
      ⟨"/governance", "governance", .Governance⟩ ]⟩

/-! ## Auxiliary facts about strings -/

theorem str_append_cancel_left {a b c : String} (h : a ++ b = a ++ c) : b = c := by
  have hd := congrArg String.data h
  simp only [String.data_append] at hd
  exact String.ext (List.append_cancel_left hd)

theorem str_append_cancel_right {a b c : String} (h : b ++ a = c ++ a) : b = c := by
  have hd := congrArg String.data h
  simp only [String.data_append] at hd
  exact String.ext (List.append_cancel_right hd)

theorem jsval_str_inj {a b : String} : JsVal.str a = JsVal.str b ↔ a = b := by
  simp [JsVal.str]

theorem filter_key_length_le_one {α β : Type} [DecidableEq β] (f : α → β) (b : β) :
    ∀ l : List α, (l.map f).Nodup → (l.filter (fun r => decide (f r = b))).length ≤ 1
  | [], _ => by simp
  | a :: l, h => by
    rw [List.map_cons, List.nodup_cons] at h
    by_cases hab : f a = b
    · have hnil : l.filter (fun r => decide (f r = b)) = [] := by
        rw [List.filter_eq_nil_iff]
        intro x hx hfx
        exact h.1 (List.mem_map.mpr ⟨x, hx, (of_decide_eq_true hfx).trans hab.symm⟩)
      simp [List.filter_cons, hab, hnil]
    · simpa [List.filter_cons, hab] using filter_key_length_le_one f b l h.2

/-! ## The endpoint map -/

/-- C1: for every address string, `api.edge` hands exactly one call to the client; the call is a
`get` whose argument list is the single string "/edges/" followed by the address (no further
argument, so no body and no config), and the operation yields the client's answer to it. In
particular `edge('0xabc')` issues GET "/edges/0xabc". -/
theorem edge_issues_single_get (addr : String) :
    (∀ (ρ : Type) (client : Client ρ),
      api.edge client (.str addr) = client.get [JsVal.str ("/edges/" ++ addr)]) ∧
    (∀ (α : Type) (respond : Call → α) (log : List Call),
      api.edge (mock respond) (.str addr) log =
        (respond ⟨.GET, [JsVal.str ("/edges/" ++ addr)]⟩,
          log ++ [⟨.GET, [JsVal.str ("/edges/" ++ addr)]⟩])) ∧
    (∀ (α : Type) (respond : Call → α),
      api.edge (mock respond) (.str "0xabc") [] =
        (respond ⟨.GET, [JsVal.str "/edges/0xabc"]⟩, [⟨.GET, [JsVal.str "/edges/0xabc"]⟩])) := by
  refine ⟨fun _ _ => rfl, fun _ _ _ => rfl, fun _ _ => ?_⟩
  have h : "/edges/" ++ "0xabc" = "/edges/0xabc" := by decide
  simp [api.edge, mock, Prim.toStr, h]

/-- C2: for every proposal id and every reason, `api.rejectProposal` hands exactly one call to
the client; it is a `post` whose first argument is "/governance/proposals/" followed by the
string form of the id and "/reject", whose second argument (the body) is `null`, and whose third
argument is the config `{ params: { reason } }`, with `reason` as the only parameter. In
particular `rejectProposal(7, 'spam')` posts to "/governance/proposals/7/reject" with the single
parameter reason = "spam". -/
theorem rejectProposal_issues_single_post (id : Prim) (reason : JsVal) :
    (∀ (ρ : Type) (client : Client ρ),
      api.rejectProposal client id reason =
        client.post [JsVal.str ("/governance/proposals/" ++ id.toStr ++ "/reject"), JsVal.null,
          .obj [("params", .obj [("reason", reason)])]]) ∧
    (∀ (α : Type) (respond : Call → α) (log : List Call),
      api.rejectProposal (mock respond) id reason log =
        (respond ⟨.POST, [JsVal.str ("/governance/proposals/" ++ id.toStr ++ "/reject"),
            JsVal.null, .obj [("params", .obj [("reason", reason)])]]⟩,
          log ++ [⟨.POST, [JsVal.str ("/governance/proposals/" ++ id.toStr ++ "/reject"),
            JsVal.null, .obj [("params", .obj [("reason", reason)])]]⟩])) ∧
    (∀ (α : Type) (respond : Call → α),
      api.rejectProposal (mock respond) (.num 7 (by decide)) (JsVal.str "spam") [] =
        (respond ⟨.POST, [JsVal.str "/governance/proposals/7/reject", JsVal.null,
            .obj [("params", .obj [("reason", JsVal.str "spam")])]]⟩,
          [⟨.POST, [JsVal.str "/governance/proposals/7/reject", JsVal.null,
            .obj [("params", .obj [("reason", JsVal.str "spam")])]]⟩])) := by
  refine ⟨fun _ _ => rfl, fun _ _ _ => rfl, fun _ _ => ?_⟩
  have h : "/governance/proposals/" ++ toString (7 : Int) ++ "/reject"
      = "/governance/proposals/7/reject" := by decide
  simp [api.rejectProposal, mock, Prim.toStr, h]

/-- C3: each of the eight parameterless operations hands exactly one call to the client, a `get`
whose only argument is the fixed path of the table (so no body and no query parameters):
health, accounts, edges, tasks, logsAll, proposals, propagations, demoStatus. -/
theorem parameterless_operations_issue_single_get (α : Type) (respond : Call → α)
    (log : List Call) :
    api.health (mock respond) log =
      (respond ⟨.GET, [JsVal.str "/health"]⟩, log ++ [⟨.GET, [JsVal.str "/health"]⟩]) ∧
    api.accounts (mock respond) log =
      (respond ⟨.GET, [JsVal.str "/accounts"]⟩, log ++ [⟨.GET, [JsVal.str "/accounts"]⟩]) ∧
    api.edges (mock respond) log =
      (respond ⟨.GET, [JsVal.str "/edges"]⟩, log ++ [⟨.GET, [JsVal.str "/edges"]⟩]) ∧
    api.tasks (mock respond) log =
      (respond ⟨.GET, [JsVal.str "/tasks"]⟩, log ++ [⟨.GET, [JsVal.str "/tasks"]⟩]) ∧
    api.logsAll (mock respond) log =
      (respond ⟨.GET, [JsVal.str "/logs"]⟩, log ++ [⟨.GET, [JsVal.str "/logs"]⟩]) ∧
    api.proposals (mock respond) log =
      (respond ⟨.GET, [JsVal.str "/governance/proposals"]⟩,
        log ++ [⟨.GET, [JsVal.str "/governance/proposals"]⟩]) ∧
    api.propagations (mock respond) log =
      (respond ⟨.GET, [JsVal.str "/reputation/propagations"]⟩,
        log ++ [⟨.GET, [JsVal.str "/reputation/propagations"]⟩]) ∧
    api.demoStatus (mock respond) log =
      (respond ⟨.GET, [JsVal.str "/demo/status"]⟩,
        log ++ [⟨.GET, [JsVal.str "/demo/status"]⟩]) :=
  ⟨rfl, rfl, rfl, rfl, rfl, rfl, rfl, rfl⟩

/-- C4: for every task id `t`, each of `task`, `logsByTask` and `auditLogs` hands exactly one
call to the client, a `get` whose only argument is the template with the string form of `t`
substituted: "/tasks/" ++ t, "/tasks/" ++ t ++ "/logs", "/audit/tasks/" ++ t ++ "/logs". -/
theorem task_operations_issue_single_get (t : Prim) (α : Type) (respond : Call → α)
    (log : List Call) :
    api.task (mock respond) t log =
      (respond ⟨.GET, [JsVal.str ("/tasks/" ++ t.toStr)]⟩,
        log ++ [⟨.GET, [JsVal.str ("/tasks/" ++ t.toStr)]⟩]) ∧
    api.logsByTask (mock respond) t log =
      (respond ⟨.GET, [JsVal.str ("/tasks/" ++ t.toStr ++ "/logs")]⟩,
        log ++ [⟨.GET, [JsVal.str ("/tasks/" ++ t.toStr ++ "/logs")]⟩]) ∧
    api.auditLogs (mock respond) t log =
      (respond ⟨.GET, [JsVal.str ("/audit/tasks/" ++ t.toStr ++ "/logs")]⟩,
        log ++ [⟨.GET, [JsVal.str ("/audit/tasks/" ++ t.toStr ++ "/logs")]⟩]) :=
  ⟨rfl, rfl, rfl⟩

/-- C5: for every id, `approveProposal` hands exactly one call to the client, a `post` whose only
argument is "/governance/proposals/" ++ string form of id ++ "/approve" (no body, no config);
for every payload, `demoSeed` hands exactly one call to the client, a `post` with the two
arguments "/demo/seed" and the payload itself (no config). Every invocation of `api` issues
exactly one call, which is a `post` for the three keys approveProposal, rejectProposal and
demoSeed and a `get` for the other twelve of the fifteen keys. -/
theorem post_operations (α : Type) (respond : Call → α) (log : List Call) :
    (∀ id : Prim,
      api.approveProposal (mock respond) id log =
        (respond ⟨.POST, [JsVal.str ("/governance/proposals/" ++ id.toStr ++ "/approve")]⟩,
          log ++ [⟨.POST, [JsVal.str ("/governance/proposals/" ++ id.toStr ++ "/approve")]⟩])) ∧
    (∀ payload : JsVal,
      api.demoSeed (mock respond) payload log =
        (respond ⟨.POST, [JsVal.str "/demo/seed", payload]⟩,
          log ++ [⟨.POST, [JsVal.str "/demo/seed", payload]⟩])) ∧
    (∀ inv : Invocation, ∃ args : List JsVal,
      api.apply (mock respond) inv log =
        (respond ⟨if inv.key ∈ [Key.approveProposal, Key.rejectProposal, Key.demoSeed]
            then .POST else .GET, args⟩,
          log ++ [⟨if inv.key ∈ [Key.approveProposal, Key.rejectProposal, Key.demoSeed]
            then .POST else .GET, args⟩])) ∧
    Fintype.card Key = 15 ∧
    (Finset.univ.filter
      (fun k : Key => k ∈ [Key.approveProposal, Key.rejectProposal, Key.demoSeed])).card = 3 ∧
    (Finset.univ.filter
      (fun k : Key => k ∉ [Key.approveProposal, Key.rejectProposal, Key.demoSeed])).card = 12 := by
  refine ⟨fun _ => rfl, fun _ => rfl, fun inv => ?_, by decide, by decide, by decide⟩
  cases inv <;> exact ⟨_, rfl⟩

theorem apply_is_client_answer (inv : Invocation) :
    ∃ c : Call,
      (∀ (α : Type) (respond : Call → α) (log : List Call),
        api.apply (mock respond) inv log = (respond c, log ++ [c])) ∧
      c.method = (if inv.key ∈ [Key.approveProposal, Key.rejectProposal, Key.demoSeed]
        then .POST else .GET) ∧
      (∀ (ρ : Type) (client : Client ρ), api.apply client inv = client.send c) ∧
      (∀ (ε α : Type) (e : ε),
        api.apply (⟨fun _ => .error e, fun _ => .error e⟩ : Client (Except ε α)) inv
          = .error e) ∧
      (∀ (ε α : Type) (v : α),
        api.apply (⟨fun _ => .ok v, fun _ => .ok v⟩ : Client (Except ε α)) inv = .ok v) := by
  cases inv <;>
    exact ⟨_, fun _ _ _ => rfl, rfl, fun _ _ => rfl, fun _ _ _ => rfl, fun _ _ _ => rfl⟩

theorem call_is_error_or_apply (objToString : List (String × JsVal) → Except JsError String)
    (k : Key) (args : List JsVal) :
    (k ∈ [Key.edge, Key.task, Key.logsByTask, Key.auditLogs, Key.approveProposal,
        Key.rejectProposal] ∧
      ∃ e : JsError, interpolate objToString (param args 0) = .error e ∧
        ∀ (ρ : Type) (client : Client ρ), api.call objToString client k args = .error e) ∨
    ((k ∉ [Key.edge, Key.task, Key.logsByTask, Key.auditLogs, Key.approveProposal,
        Key.rejectProposal] ∨
        ∃ s : String, interpolate objToString (param args 0) = .ok s) ∧
      ∃ inv : Invocation, inv.key = k ∧
        ∀ (ρ : Type) (client : Client ρ),
          api.call objToString client k args = .ok (api.apply client inv)) := by
  cases k
  case health => exact Or.inr ⟨Or.inl (by decide), .health, rfl, fun _ _ => rfl⟩
  case accounts => exact Or.inr ⟨Or.inl (by decide), .accounts, rfl, fun _ _ => rfl⟩
  case edges => exact Or.inr ⟨Or.inl (by decide), .edges, rfl, fun _ _ => rfl⟩
  case tasks => exact Or.inr ⟨Or.inl (by decide), .tasks, rfl, fun _ _ => rfl⟩
  case logsAll => exact Or.inr ⟨Or.inl (by decide), .logsAll, rfl, fun _ _ => rfl⟩
  case proposals => exact Or.inr ⟨Or.inl (by decide), .proposals, rfl, fun _ _ => rfl⟩
  case propagations => exact Or.inr ⟨Or.inl (by decide), .propagations, rfl, fun _ _ => rfl⟩
  case demoStatus => exact Or.inr ⟨Or.inl (by decide), .demoStatus, rfl, fun _ _ => rfl⟩
  case demoSeed =>
    exact Or.inr ⟨Or.inl (by decide), .demoSeed (param args 0), rfl, fun _ _ => rfl⟩
  case edge =>
    cases h : interpolate objToString (param args 0) with
    | error e => exact Or.inl ⟨by decide, e, rfl, fun _ _ => by simp [api.call, h, Except.map]⟩
    | ok s =>
      exact Or.inr ⟨Or.inr ⟨s, rfl⟩, .edge (.str s), rfl,
        fun _ _ => by simp [api.call, api.apply, h, Except.map]⟩
  case task =>
    cases h : interpolate objToString (param args 0) with
    | error e => exact Or.inl ⟨by decide, e, rfl, fun _ _ => by simp [api.call, h, Except.map]⟩
    | ok s =>
      exact Or.inr ⟨Or.inr ⟨s, rfl⟩, .task (.str s), rfl,
        fun _ _ => by simp [api.call, api.apply, h, Except.map]⟩
  case logsByTask =>
    cases h : interpolate objToString (param args 0) with
    | error e => exact Or.inl ⟨by decide, e, rfl, fun _ _ => by simp [api.call, h, Except.map]⟩
    | ok s =>
      exact Or.inr ⟨Or.inr ⟨s, rfl⟩, .logsByTask (.str s), rfl,
        fun _ _ => by simp [api.call, api.apply, h, Except.map]⟩
  case auditLogs =>
    cases h : interpolate objToString (param args 0) with
    | error e => exact Or.inl ⟨by decide, e, rfl, fun _ _ => by simp [api.call, h, Except.map]⟩
    | ok s =>
      exact Or.inr ⟨Or.inr ⟨s, rfl⟩, .auditLogs (.str s), rfl,
        fun _ _ => by simp [api.call, api.apply, h, Except.map]⟩
  case approveProposal =>
    cases h : interpolate objToString (param args 0) with
    | error e => exact Or.inl ⟨by decide, e, rfl, fun _ _ => by simp [api.call, h, Except.map]⟩
    | ok s =>
      exact Or.inr ⟨Or.inr ⟨s, rfl⟩, .approveProposal (.str s), rfl,
        fun _ _ => by simp [api.call, api.apply, h, Except.map]⟩
  case rejectProposal =>
    cases h : interpolate objToString (param args 0) with
    | error e => exact Or.inl ⟨by decide, e, rfl, fun _ _ => by simp [api.call, h, Except.map]⟩
    | ok s =>
      exact Or.inr ⟨Or.inr ⟨s, rfl⟩, .rejectProposal (.str s) (param args 1), rfl,
        fun _ _ => by simp [api.call, api.apply, h, Except.map]⟩

/-- C7 (as worded, refuted): `api.task(Symbol('s'))` does not return the value of a client
call. Converting the symbol for the URL template raises a `TypeError` before `client.get` is
entered, so the outcome is that error and is not the client's answer to any call. -/
theorem task_symbol_raises_before_client_call :
    api.call (fun _ => .ok "[object Object]") urlProbe .task [JsVal.symbol "s"]
      = .error .typeError ∧
    ¬ ∃ c : Call,
      api.call (fun _ => .ok "[object Object]") urlProbe .task [JsVal.symbol "s"]
        = .ok (urlProbe.send c) := by
  refine ⟨rfl, ?_⟩
  rintro ⟨c, hc⟩
  simp [api.call, interpolate, param, Except.map] at hc

/-- C7 (amended): for every operation of `api`, every argument list and every client, one of
two things happens. Either the operation has a URL template and converting its first argument
to a string raises an error: then no client call is made and the operation fails with that
error. Or the conversion completes (or there is none): then the operation makes a single
client call `c`, a `post` for approveProposal, rejectProposal and demoSeed and a `get`
otherwise, and its result is exactly the client's answer to `c`, neither wrapped nor
transformed: a mock transport logs `c` alone, a client whose call fails with `e` makes the
operation yield that failure, and a client whose call yields `v` makes it yield `v`. -/
theorem result_is_client_answer_unless_conversion_raises
    (objToString : List (String × JsVal) → Except JsError String) (k : Key)
    (args : List JsVal) :
    (k ∈ [Key.edge, Key.task, Key.logsByTask, Key.auditLogs, Key.approveProposal,
        Key.rejectProposal] ∧
      ∃ e : JsError, interpolate objToString (param args 0) = .error e ∧
        ∀ (ρ : Type) (client : Client ρ), api.call objToString client k args = .error e) ∨
    ((k ∉ [Key.edge, Key.task, Key.logsByTask, Key.auditLogs, Key.approveProposal,
        Key.rejectProposal] ∨
        ∃ s : String, interpolate objToString (param args 0) = .ok s) ∧
      ∃ c : Call,
        c.method = (if k ∈ [Key.approveProposal, Key.rejectProposal, Key.demoSeed]
          then .POST else .GET) ∧
        (∀ (ρ : Type) (client : Client ρ),
          api.call objToString client k args = .ok (client.send c)) ∧
        (∀ (α : Type) (respond : Call → α) (log : List Call),
          (api.call objToString (mock respond) k args).map (fun run => run log)
            = .ok (respond c, log ++ [c])) ∧
        (∀ (ε α : Type) (e : ε),
          api.call objToString (⟨fun _ => .error e, fun _ => .error e⟩ : Client (Except ε α))
            k args = .ok (.error e)) ∧
        (∀ (ε α : Type) (v : α),
          api.call objToString (⟨fun _ => .ok v, fun _ => .ok v⟩ : Client (Except ε α))
            k args = .ok (.ok v))) := by
  rcases call_is_error_or_apply objToString k args with h | ⟨hcond, inv, hkey, hinv⟩
  · exact Or.inl h
  · obtain ⟨c, hmock, hmethod, hsend, herr, hok⟩ := apply_is_client_answer inv
    refine Or.inr ⟨hcond, c, hkey ▸ hmethod, fun ρ client => ?_, fun α respond log => ?_,
      fun ε α e => ?_, fun ε α v => ?_⟩
    · rw [hinv, hsend]
    · rw [hinv, Except.map, hmock]
    · rw [hinv, herr]
    · rw [hinv, hok]

/-- C9: string parameters are interpolated verbatim, so distinct operations can issue the same
request: for every string `t`, `task(t ++ "/logs")` issues the same call as `logsByTask(t)`,
namely GET "/tasks/" ++ t ++ "/logs"; and `edge("")` issues GET "/edges/", which is not the URL
"/edges" issued by `edges()`. -/
theorem interpolation_is_verbatim (t : String) :
    (∀ s : String, Prim.toStr (.str s) = s) ∧
    (∀ (ρ : Type) (client : Client ρ),
      api.task client (.str (t ++ "/logs")) = api.logsByTask client (.str t)) ∧
    (∀ (α : Type) (respond : Call → α) (log : List Call),
      api.task (mock respond) (.str (t ++ "/logs")) log =
        (respond ⟨.GET, [JsVal.str ("/tasks/" ++ t ++ "/logs")]⟩,
          log ++ [⟨.GET, [JsVal.str ("/tasks/" ++ t ++ "/logs")]⟩])) ∧
    (∀ (α : Type) (respond : Call → α) (log : List Call),
      api.logsByTask (mock respond) (.str t) log =
        (respond ⟨.GET, [JsVal.str ("/tasks/" ++ t ++ "/logs")]⟩,
          log ++ [⟨.GET, [JsVal.str ("/tasks/" ++ t ++ "/logs")]⟩])) ∧
    (∀ (α : Type) (respond : Call → α) (log : List Call),
      api.edge (mock respond) (.str "") log =
        (respond ⟨.GET, [JsVal.str "/edges/"]⟩, log ++ [⟨.GET, [JsVal.str "/edges/"]⟩])) ∧
    (∀ (α : Type) (respond : Call → α) (log : List Call),
      api.edges (mock respond) log =
        (respond ⟨.GET, [JsVal.str "/edges"]⟩, log ++ [⟨.GET, [JsVal.str "/edges"]⟩])) ∧
    api.edge urlProbe (.str "") = some (JsVal.str "/edges/") ∧
    api.edges urlProbe = some (JsVal.str "/edges") ∧
    api.edge urlProbe (.str "") ≠ api.edges urlProbe := by
  have hassoc : "/tasks/" ++ (t ++ "/logs") = "/tasks/" ++ t ++ "/logs" :=
    (String.append_assoc _ _ _).symm
  have hempty : "/edges/" ++ "" = "/edges/" := by decide
  have hne : "/edges/" ≠ "/edges" := by decide
  refine ⟨fun _ => rfl, fun _ _ => ?_, fun _ _ _ => ?_, fun _ _ _ => rfl, fun _ _ _ => ?_,
    fun _ _ _ => rfl, ?_, rfl, ?_⟩
  · simp only [api.task, api.logsByTask, Prim.toStr, hassoc]
  · simp only [api.task, mock, Prim.toStr, hassoc]
  · simp only [api.edge, mock, Prim.toStr, hempty]
  · simp [api.edge, urlProbe, Prim.toStr, hempty]
  · simp [api.edge, api.edges, urlProbe, Prim.toStr, hempty, jsval_str_inj, hne]

/-- C10: each parameterised operation is injective in its string arguments: for `edge`, `task`,
`logsByTask`, `auditLogs` and `approveProposal`, calls with strings `a` and `b` issue the same
URL if and only if `a = b`; for `rejectProposal`, calls with ids `a`, `b` and reasons `r`, `s`
issue the same request if and only if `a = b` and `r = s`, the URL being the same exactly when
the ids are and the config (query parameters) exactly when the reasons are. -/
theorem parameterised_operations_injective (a b r s : String) :
    (api.edge urlProbe (.str a) = api.edge urlProbe (.str b) ↔ a = b) ∧
    (api.task urlProbe (.str a) = api.task urlProbe (.str b) ↔ a = b) ∧
    (api.logsByTask urlProbe (.str a) = api.logsByTask urlProbe (.str b) ↔ a = b) ∧
    (api.auditLogs urlProbe (.str a) = api.auditLogs urlProbe (.str b) ↔ a = b) ∧
    (api.approveProposal urlProbe (.str a) = api.approveProposal urlProbe (.str b) ↔ a = b) ∧
    (api.rejectProposal urlProbe (.str a) (JsVal.str r) =
      api.rejectProposal urlProbe (.str b) (JsVal.str s) ↔ a = b) ∧
    (api.rejectProposal configProbe (.str a) (JsVal.str r) =
      api.rejectProposal configProbe (.str b) (JsVal.str s) ↔ r = s) ∧
    (∀ log : List Call,
      (api.rejectProposal (mock (fun _ => ())) (.str a) (JsVal.str r) log).2 =
        (api.rejectProposal (mock (fun _ => ())) (.str b) (JsVal.str s) log).2 ↔
      a = b ∧ r = s) := by
  have hl : ∀ p : String, p ++ a = p ++ b ↔ a = b :=
    fun p => ⟨str_append_cancel_left, fun h => by rw [h]⟩
  have hm : ∀ p q : String, p ++ a ++ q = p ++ b ++ q ↔ a = b :=
    fun p q => ⟨fun h => str_append_cancel_left (str_append_cancel_right h), fun h => by rw [h]⟩
  refine ⟨?_, ?_, ?_, ?_, ?_, ?_, ?_, fun log => ?_⟩
  · simp [api.edge, urlProbe, Prim.toStr, jsval_str_inj, hl]
  · simp [api.task, urlProbe, Prim.toStr, jsval_str_inj, hl]
  · simp [api.logsByTask, urlProbe, Prim.toStr, jsval_str_inj, hm]
  · simp [api.auditLogs, urlProbe, Prim.toStr, jsval_str_inj, hm]
  · simp [api.approveProposal, urlProbe, Prim.toStr, jsval_str_inj, hm]
  · simp [api.rejectProposal, urlProbe, Prim.toStr, jsval_str_inj, hm]
  · simp [api.rejectProposal, configProbe, jsval_str_inj]
  · simp [api.rejectProposal, mock, Prim.toStr, jsval_str_inj, hm]

/-! ## The route table -/

/-- C6: the route table has exactly four records; looking up each declared path yields the
declared record: "/" is dashboard with view Dashboard, "/edge/:addr" is edgeDetail with view
EdgeDetail, "/audit" is audit with view LogsAudit, "/governance" is governance with view
Governance; and a path pattern is registered only if it is one of these four. -/
theorem route_table_lookup :
    router.routes.length = 4 ∧
    router.routes.find? (fun r => decide (r.path = "/")) =
      some ⟨"/", "dashboard", .Dashboard⟩ ∧
    router.routes.find? (fun r => decide (r.path = "/edge/:addr")) =
      some ⟨"/edge/:addr", "edgeDetail", .EdgeDetail⟩ ∧
    router.routes.find? (fun r => decide (r.path = "/audit")) =
      some ⟨"/audit", "audit", .LogsAudit⟩ ∧
    router.routes.find? (fun r => decide (r.path = "/governance")) =
      some ⟨"/governance", "governance", .Governance⟩ ∧
    (∀ p : String, (∃ r ∈ router.routes, r.path = p) ↔
      p ∈ ["/", "/edge/:addr", "/audit", "/governance"]) := by
  refine ⟨rfl, by decide, by decide, by decide, by decide, fun p => ?_⟩
  simp only [router, List.mem_cons, List.mem_singleton, List.not_mem_nil, or_false,
    exists_eq_or_imp, exists_eq_left]
  constructor <;> intro h <;> rcases h with h | h | h | h <;> simp [h]

/-- C8: route names are unique and path patterns are unique: the lists of names and of paths
have no repetition, two records of the table with the same name (or the same path) are the same
record, and a lookup by name or by path pattern selects at most one record. -/
theorem route_names_and_paths_unique :
    (router.routes.map (fun r => r.name)).Nodup ∧
    (router.routes.map (fun r => r.path)).Nodup ∧
    (∀ r ∈ router.routes, ∀ s ∈ router.routes, r.name = s.name → r = s) ∧
    (∀ r ∈ router.routes, ∀ s ∈ router.routes, r.path = s.path → r = s) ∧
    (∀ n : String, (router.routes.filter (fun r => decide (r.name = n))).length ≤ 1) ∧
    (∀ p : String, (router.routes.filter (fun r => decide (r.path = p))).length ≤ 1) := by
  have hn : (router.routes.map (fun r => r.name)).Nodup := by decide
  have hp : (router.routes.map (fun r => r.path)).Nodup := by decide
  exact ⟨hn, hp, by decide, by decide,
    fun n => filter_key_length_le_one (fun r : RouteRecord => r.name) n _ hn,
    fun p => filter_key_length_le_one (fun r : RouteRecord => r.path) p _ hp⟩

end Tb3
